import Mathlib

/-
  Verification of the SpringSim physics core (damped mass-spring oscillator).

  Shallow embedding of the TypeScript sources:
    - src/lib/integration.ts and src/lib/physics.ts : force model, RK4 step,
      energy evaluator (pure functions over JS numbers);
    - src/hooks/usePhysicsEngine.ts : composite acceleration and next-state;
    - src/hooks/useGraphData.ts : rolling-window time-series buffer;
    - src/hooks/useSimulation.ts : the simulation loop state machine
      (start / pause / resume / reset / setInitialDisplacement and the
      per-tick animate callback).

  JS numbers are modelled as JsNum: a finite rational, NaN, or one of the two
  infinities, with IEEE-style propagation of the non-finite values through
  the arithmetic operations.  Finite arithmetic is exact (no rounding and no
  overflow); the finiteness checks of the source are embedded verbatim.
  Exceptions thrown by the source are modelled with Except over the error
  taxonomy of the design (InvalidInput / NumericalDivergence).
-/

namespace SpringSim

/-- Model of a JavaScript number: a finite rational or one of the three
non-finite values NaN, positive infinity, negative infinity. -/
inductive JsNum where
  | fin (q : ℚ)
  | nan
  | inf
  | ninf
deriving DecidableEq, Repr

namespace JsNum

/-- Embedding of Number.isFinite. -/
def isFinite : JsNum → Bool
  | fin _ => true
  | _ => false

/-- Embedding of the JS comparison x < 0 (NaN compares false). -/
def ltZero : JsNum → Bool
  | fin q => decide (q < 0)
  | ninf => true
  | _ => false

/-- Embedding of the JS comparison x <= 0 (NaN compares false). -/
def leZero : JsNum → Bool
  | fin q => decide (q ≤ 0)
  | ninf => true
  | _ => false

/-- IEEE-style negation. -/
def neg : JsNum → JsNum
  | fin q => fin (-q)
  | nan => nan
  | inf => ninf
  | ninf => inf

/-- IEEE-style addition: NaN absorbs, opposite infinities give NaN. -/
def add : JsNum → JsNum → JsNum
  | nan, _ => nan
  | _, nan => nan
  | inf, ninf => nan
  | ninf, inf => nan
  | inf, _ => inf
  | _, inf => inf
  | ninf, _ => ninf
  | _, ninf => ninf
  | fin p, fin q => fin (p + q)

/-- IEEE-style multiplication: NaN absorbs, infinity times zero gives NaN. -/
def mul : JsNum → JsNum → JsNum
  | nan, _ => nan
  | _, nan => nan
  | inf, inf => inf
  | inf, ninf => ninf
  | ninf, inf => ninf
  | ninf, ninf => inf
  | inf, fin q => if 0 < q then inf else if q < 0 then ninf else nan
  | fin q, inf => if 0 < q then inf else if q < 0 then ninf else nan
  | ninf, fin q => if 0 < q then ninf else if q < 0 then inf else nan
  | fin q, ninf => if 0 < q then ninf else if q < 0 then inf else nan
  | fin p, fin q => fin (p * q)

/-- IEEE-style division (the signed zero of JS is not modelled; division of a
nonzero finite value by zero yields the infinity of the matching sign). -/
def div : JsNum → JsNum → JsNum
  | nan, _ => nan
  | _, nan => nan
  | inf, inf => nan
  | inf, ninf => nan
  | ninf, inf => nan
  | ninf, ninf => nan
  | inf, fin q => if 0 ≤ q then inf else ninf
  | ninf, fin q => if 0 ≤ q then ninf else inf
  | fin _, inf => fin 0
  | fin _, ninf => fin 0
  | fin p, fin q =>
      if q = 0 then (if p = 0 then nan else if 0 < p then inf else ninf)
      else fin (p / q)

end JsNum

instance : Neg JsNum := ⟨JsNum.neg⟩

instance : Add JsNum := ⟨JsNum.add⟩

instance : Mul JsNum := ⟨JsNum.mul⟩

instance : Div JsNum := ⟨JsNum.div⟩

/-- Error taxonomy of the design document: InvalidInput for the defensive
argument checks of the force model and the integrator input validation,
NumericalDivergence for a non-finite RK4 slope or result. -/
inductive PhysicsError where
  | invalidInput
  | numericalDivergence
deriving DecidableEq, Repr

/-- State vector of the integrator, from src/lib/integration.ts. -/
structure State where
  position : JsNum
  velocity : JsNum
deriving DecidableEq, Repr

/-- Embedding of computeSpringForce from src/lib/physics.ts:
Hooke law F = -k * x with a finiteness guard on both arguments. -/
def computeSpringForce (displacement springConstant : JsNum) :
    Except PhysicsError JsNum :=
  if !(displacement.isFinite && springConstant.isFinite) then
    Except.error PhysicsError.invalidInput
  else
    Except.ok (-springConstant * displacement)

/-- Embedding of computeDampingForce from src/lib/physics.ts:
F = -c * v with finiteness guards and a non-negativity guard on c. -/
def computeDampingForce (velocity dampingCoefficient : JsNum) :
    Except PhysicsError JsNum :=
  if !(velocity.isFinite && dampingCoefficient.isFinite) then
    Except.error PhysicsError.invalidInput
  else if dampingCoefficient.ltZero then
    Except.error PhysicsError.invalidInput
  else
    Except.ok (-dampingCoefficient * velocity)

/-- Embedding of computeAcceleration from src/lib/physics.ts:
a = F / m with finiteness guards and a positivity guard on the mass. -/
def computeAcceleration (force mass : JsNum) : Except PhysicsError JsNum :=
  if !(force.isFinite && mass.isFinite) then
    Except.error PhysicsError.invalidInput
  else if mass.leZero then
    Except.error PhysicsError.invalidInput
  else
    Except.ok (force / mass)

/-- Embedding of computeKineticEnergy from src/lib/physics.ts. -/
def computeKineticEnergy (mass velocity : JsNum) : Except PhysicsError JsNum :=
  if !(mass.isFinite && velocity.isFinite) then
    Except.error PhysicsError.invalidInput
  else if mass.leZero then
    Except.error PhysicsError.invalidInput
  else
    Except.ok (JsNum.fin (1/2) * mass * velocity * velocity)

/-- Embedding of computePotentialEnergy from src/lib/physics.ts. -/
def computePotentialEnergy (springConstant displacement : JsNum) :
    Except PhysicsError JsNum :=
  if !(springConstant.isFinite && displacement.isFinite) then
    Except.error PhysicsError.invalidInput
  else if springConstant.leZero then
    Except.error PhysicsError.invalidInput
  else
    Except.ok (JsNum.fin (1/2) * springConstant * displacement * displacement)

/-- Embedding of computeTotalEnergy from src/lib/physics.ts:
E = KE + PE, propagating the guard failures of both summands. -/
def computeTotalEnergy (mass velocity springConstant displacement : JsNum) :
    Except PhysicsError JsNum :=
  match computeKineticEnergy mass velocity with
  | Except.error e => Except.error e
  | Except.ok kineticEnergy =>
    match computePotentialEnergy springConstant displacement with
    | Except.error e => Except.error e
    | Except.ok potentialEnergy => Except.ok (kineticEnergy + potentialEnergy)

/-- Embedding of rk4Step from src/lib/integration.ts: one classical RK4 step
for the system dx/dt = v, dv/dt = a(x, v), with the input-finiteness guard,
the four per-slope finiteness checks (each raising NumericalDivergence the
moment the slope is non-finite) and the final output check. -/
def rk4Step (state : State) (dt : JsNum)
    (accelerationFunc : JsNum → JsNum → Except PhysicsError JsNum) :
    Except PhysicsError State :=
  let x := state.position
  let v := state.velocity
  if !(x.isFinite && v.isFinite && dt.isFinite) then
    Except.error PhysicsError.invalidInput
  else
    let k1_dx := v
    match accelerationFunc x v with
    | Except.error e => Except.error e
    | Except.ok k1_dv =>
      if !k1_dv.isFinite then Except.error PhysicsError.numericalDivergence
      else
        let k2_dx := v + k1_dv * dt / JsNum.fin 2
        match accelerationFunc (x + k1_dx * dt / JsNum.fin 2)
            (v + k1_dv * dt / JsNum.fin 2) with
        | Except.error e => Except.error e
        | Except.ok k2_dv =>
          if !k2_dv.isFinite then Except.error PhysicsError.numericalDivergence
          else
            let k3_dx := v + k2_dv * dt / JsNum.fin 2
            match accelerationFunc (x + k2_dx * dt / JsNum.fin 2)
                (v + k2_dv * dt / JsNum.fin 2) with
            | Except.error e => Except.error e
            | Except.ok k3_dv =>
              if !k3_dv.isFinite then
                Except.error PhysicsError.numericalDivergence
              else
                let k4_dx := v + k3_dv * dt
                match accelerationFunc (x + k3_dx * dt) (v + k3_dv * dt) with
                | Except.error e => Except.error e
                | Except.ok k4_dv =>
                  if !k4_dv.isFinite then
                    Except.error PhysicsError.numericalDivergence
                  else
                    let dx := (k1_dx + JsNum.fin 2 * k2_dx +
                      JsNum.fin 2 * k3_dx + k4_dx) / JsNum.fin 6
                    let dv := (k1_dv + JsNum.fin 2 * k2_dv +
                      JsNum.fin 2 * k3_dv + k4_dv) / JsNum.fin 6
                    let newPosition := x + dx * dt
                    let newVelocity := v + dv * dt
                    if !(newPosition.isFinite && newVelocity.isFinite) then
                      Except.error PhysicsError.numericalDivergence
                    else
                      Except.ok { position := newPosition,
                                  velocity := newVelocity }

/-- User-configurable parameters, from src/types/simulation.ts. -/
structure SpringParameters where
  mass : JsNum
  springConstant : JsNum
  initialLength : JsNum
  dampingCoefficient : JsNum
deriving DecidableEq, Repr

/-- Embedding of computeAccelerationFromState from
src/hooks/usePhysicsEngine.ts: the composite acceleration
a = (springForce + dampingForce) / mass, propagating the guard failures of
the three force-model functions. -/
def computeAccelerationFromState (params : SpringParameters)
    (position velocity : JsNum) : Except PhysicsError JsNum :=
  match computeSpringForce position params.springConstant with
  | Except.error e => Except.error e
  | Except.ok springForce =>
    match computeDampingForce velocity params.dampingCoefficient with
    | Except.error e => Except.error e
    | Except.ok dampingForce =>
      let totalForce := springForce + dampingForce
      computeAcceleration totalForce params.mass

/-- Result record of computeNextState from src/hooks/usePhysicsEngine.ts. -/
structure NextState where
  position : JsNum
  velocity : JsNum
  acceleration : JsNum
deriving DecidableEq, Repr

/-- Embedding of computeNextState from src/hooks/usePhysicsEngine.ts:
one RK4 step followed by recomputing the acceleration at the new state
for display. -/
def computeNextState (params : SpringParameters) (currentState : State)
    (dt : JsNum) : Except PhysicsError NextState :=
  match rk4Step currentState dt (computeAccelerationFromState params) with
  | Except.error e => Except.error e
  | Except.ok next =>
    match computeAccelerationFromState params next.position next.velocity with
    | Except.error e => Except.error e
    | Except.ok acceleration =>
      Except.ok { position := next.position, velocity := next.velocity,
                  acceleration := acceleration }

/-- Embedding of the computeTotalEnergy closure returned by usePhysicsEngine:
energy of a (position, velocity) pair under the fixed parameters. -/
def computeEnergy (params : SpringParameters) (position velocity : JsNum) :
    Except PhysicsError JsNum :=
  computeTotalEnergy params.mass velocity params.springConstant position

/-- Physics timestep, PHYSICS_CONSTANTS.TIMESTEP from src/lib/constants.ts
(seconds). -/
def TIMESTEP : ℚ := 1 / 60

/-- Sampling interval, PHYSICS_CONSTANTS.GRAPH_UPDATE_INTERVAL from
src/lib/constants.ts (milliseconds). -/
def GRAPH_UPDATE_INTERVAL : ℚ := 100

/-- Rolling-window duration, PHYSICS_CONSTANTS.GRAPH_WINDOW_DURATION from
src/lib/constants.ts (seconds). -/
def GRAPH_WINDOW_DURATION : ℚ := 15

/-- One sampled observation, DataPoint from src/types/simulation.ts.  The
sample time is produced by the loop as a sum of timesteps and is modelled
as a rational; the observed value carries the JS-number model. -/
structure DataPoint where
  time : ℚ
  value : JsNum
deriving DecidableEq, Repr

/-- The four sample channels, TimeSeriesData from src/types/simulation.ts. -/
structure TimeSeriesData where
  displacement : List DataPoint
  velocity : List DataPoint
  acceleration : List DataPoint
  totalEnergy : List DataPoint
deriving DecidableEq, Repr

/-- The empty buffer, the initial value in useGraphData. -/
def emptyTimeSeriesData : TimeSeriesData :=
  { displacement := [], velocity := [], acceleration := [], totalEnergy := [] }

/-- Embedding of the pruneAndAdd helper inside addDataPoint
(src/hooks/useGraphData.ts): drop every point strictly older than the
cutoff, then append the new sample at the end. -/
def pruneAndAdd (cutoffTime : ℚ) (time : ℚ) (data : List DataPoint)
    (value : JsNum) : List DataPoint :=
  (data.filter fun point => decide (cutoffTime ≤ point.time)) ++
    [{ time := time, value := value }]

/-- Embedding of addDataPoint from src/hooks/useGraphData.ts: append one
sample per channel and evict points older than the 15 s window. -/
def addDataPoint (time : ℚ) (displacement velocity acceleration totalEnergy :
    JsNum) (prev : TimeSeriesData) : TimeSeriesData :=
  let cutoffTime := time - GRAPH_WINDOW_DURATION
  { displacement := pruneAndAdd cutoffTime time prev.displacement displacement,
    velocity := pruneAndAdd cutoffTime time prev.velocity velocity,
    acceleration := pruneAndAdd cutoffTime time prev.acceleration acceleration,
    totalEnergy := pruneAndAdd cutoffTime time prev.totalEnergy totalEnergy }

/-- Embedding of clearData from src/hooks/useGraphData.ts. -/
def clearData : TimeSeriesData := emptyTimeSeriesData

/-- SimulationState from src/types/simulation.ts.  The elapsed time is only
ever 0 or a sum of timesteps, so it is modelled as a rational. -/
structure SimulationState where
  position : JsNum
  velocity : JsNum
  acceleration : JsNum
  time : ℚ
  isRunning : Bool
  isPaused : Bool
deriving DecidableEq, Repr

/-- Initial SimulationState of useSimulation (src/hooks/useSimulation.ts). -/
def initialSimulationState : SimulationState :=
  { position := JsNum.fin 0, velocity := JsNum.fin 0,
    acceleration := JsNum.fin 0, time := 0,
    isRunning := false, isPaused := false }

/-- Whole observable state owned by one useSimulation instance: the live
oscillator state, the four sample series, the last-sample time ref and the
pending requestAnimationFrame handle (None when no tick is scheduled; the
numeric value of the handle is opaque). -/
structure SimRun where
  state : SimulationState
  timeSeriesData : TimeSeriesData
  lastDataUpdate : ℚ
  rafId : Option ℕ
deriving DecidableEq, Repr

/-- Embedding of setInitialDisplacement from src/hooks/useSimulation.ts:
write the displacement directly into the position and zero velocity and
acceleration, leaving everything else untouched.  No validation of the
argument is performed. -/
def setInitialDisplacement (displacement : JsNum) (run : SimRun) : SimRun :=
  { run with
    state := { run.state with
               position := displacement,
               velocity := JsNum.fin 0,
               acceleration := JsNum.fin 0 } }

/-- Embedding of start from src/hooks/useSimulation.ts (the wall-clock
lastFrameTime ref is not part of the model). -/
def start (run : SimRun) : SimRun :=
  { run with
      state := { run.state with isRunning := true, isPaused := false },
      lastDataUpdate := 0 }

/-- Embedding of pause from src/hooks/useSimulation.ts: it only sets the
isPaused flag; in particular it does not touch the pending RAF handle. -/
def pause (run : SimRun) : SimRun :=
  { run with state := { run.state with isPaused := true } }

/-- Embedding of resume from src/hooks/useSimulation.ts: it only clears the
isPaused flag (the wall-clock lastFrameTime ref is not modelled). -/
def resume (run : SimRun) : SimRun :=
  { run with state := { run.state with isPaused := false } }

/-- Embedding of reset from src/hooks/useSimulation.ts: restore the initial
state, clear all four sample series and synchronously cancel any pending
RAF handle.  The lastDataUpdate ref is not touched by reset (it is
re-armed by start). -/
def reset (run : SimRun) : SimRun :=
  { state := initialSimulationState,
    timeSeriesData := clearData,
    lastDataUpdate := run.lastDataUpdate,
    rafId := none }

/-- Embedding of the animate callback of src/hooks/useSimulation.ts.  A tick
is a no-op unless the run is active.  Inside the try block the physics step
runs first and may throw, in which case the catch pauses the still
untouched pre-tick state.  On step success the advanced state is committed
by setState immediately, before the sampling block; only then, when at
least GRAPH_UPDATE_INTERVAL milliseconds of simulated time have passed
since the last sample, is the energy evaluated, so an energy throw is
caught after the advance was committed: the catch then sets isPaused on
top of the advanced state, with the buffer append and the last-sample ref
update never reached.  Scheduling-handle bookkeeping inside the tick is
abstracted away (the model tracks the handle only across the control
operations pause, resume, reset). -/
def animate (params : SpringParameters) (run : SimRun) : SimRun :=
  if !run.state.isRunning || run.state.isPaused then run
  else
    match computeNextState params
        { position := run.state.position, velocity := run.state.velocity }
        (JsNum.fin TIMESTEP) with
    | Except.error _ =>
        { run with state := { run.state with isPaused := true } }
    | Except.ok nextState =>
      let newTime := run.state.time + TIMESTEP
      let state' : SimulationState :=
        { position := nextState.position, velocity := nextState.velocity,
          acceleration := nextState.acceleration, time := newTime,
          isRunning := true, isPaused := false }
      let timeSinceLastUpdate := (newTime - run.lastDataUpdate) * 1000
      if GRAPH_UPDATE_INTERVAL ≤ timeSinceLastUpdate then
        match computeEnergy params nextState.position nextState.velocity with
        | Except.error _ =>
            { run with state := { state' with isPaused := true } }
        | Except.ok energy =>
          { state := state',
            timeSeriesData := addDataPoint newTime nextState.position
              nextState.velocity nextState.acceleration energy
              run.timeSeriesData,
            lastDataUpdate := newTime,
            rafId := run.rafId }
      else
        { run with state := state' }

/-- Specification-side definition (from the algorithm display in section 4.2
of the design document, not from the code): the classical RK4 update of the
first-order system dx/dt = v, dv/dt = a(x, v), on exact rationals. -/
def specRK4Update (a : ℚ → ℚ → ℚ) (x v dt : ℚ) : ℚ × ℚ :=
  let k1x := v
  let k1v := a x v
  let k2x := v + k1v * dt / 2
  let k2v := a (x + k1x * dt / 2) (v + k1v * dt / 2)
  let k3x := v + k2v * dt / 2
  let k3v := a (x + k2x * dt / 2) (v + k2v * dt / 2)
  let k4x := v + k3v * dt
  let k4v := a (x + k3x * dt) (v + k3v * dt)
  (x + dt / 6 * (k1x + 2 * k2x + 2 * k3x + k4x),
   v + dt / 6 * (k1v + 2 * k2v + 2 * k3v + k4v))

/-- Projection of a run onto the integration state that pause and resume
are required to preserve: position, velocity, acceleration, elapsed time. -/
def physFields (run : SimRun) : JsNum × JsNum × JsNum × ℚ :=
  (run.state.position, run.state.velocity, run.state.acceleration,
   run.state.time)

/-- Invariant of the pause and resume analysis: on a paused run the physics
step itself fails.  When the spring constant is positive this holds along
every loop trajectory from an unpaused start, because then the only way the
loop pauses a run by itself is the catch firing before the commit point
(the energy evaluation after a committed advance can only throw for a
non-positive finite spring constant); the deterministic retry of a failing
step fails again, leaving the physical fields untouched. -/
def pausedImpliesStepError (params : SpringParameters) (run : SimRun) :
    Prop :=
  run.state.isPaused = true →
    ∃ e, computeNextState params
      { position := run.state.position, velocity := run.state.velocity }
      (JsNum.fin TIMESTEP) = Except.error e

/-- Statement-side helper: a list of sampled values is non-increasing when
all its members are finite and each is at most its predecessor. -/
def sampleValuesNonIncreasing : List JsNum → Bool
  | [] => true
  | [_] => true
  | JsNum.fin a :: JsNum.fin b :: rest =>
      decide (b ≤ a) && sampleValuesNonIncreasing (JsNum.fin b :: rest)
  | _ => false

/-- Statement-side helper: the sampled totalEnergy values of a run, oldest
first. -/
def energySamples (run : SimRun) : List JsNum :=
  run.timeSeriesData.totalEnergy.map fun p => p.value

/-- A fresh simulation run, as created by useSimulation on mount. -/
def initialRun : SimRun :=
  { state := initialSimulationState, timeSeriesData := emptyTimeSeriesData,
    lastDataUpdate := 0, rafId := none }

/-- Representative valid parameter set: mass 1 kg, spring constant 10 N/m,
natural length 1 m, damping coefficient 0.5 (all within the limits of
src/lib/validation.ts, damping strictly positive). -/
def paramsRef : SpringParameters :=
  { mass := JsNum.fin 1, springConstant := JsNum.fin 10,
    initialLength := JsNum.fin 1, dampingCoefficient := JsNum.fin (1/2) }

/-- Stiff valid parameter set: mass 0.01 kg (the MIN_MASS limit), spring
constant 1000 N/m (the MAX_SPRING_CONSTANT limit), damping coefficient
0.001 (positive); all values pass validateParameters, yet the RK4 step at
dt = 1/60 s is numerically unstable for them. -/
def paramsStiff : SpringParameters :=
  { mass := JsNum.fin (1/100), springConstant := JsNum.fin 1000,
    initialLength := JsNum.fin 1, dampingCoefficient := JsNum.fin (1/1000) }

/-- Parameter set with a zero spring constant: zero is finite, so the
force model and the RK4 step accept it, but the potential-energy guard
rejects it; the energy evaluation of a sampling tick is then the first
place it throws, after the advanced state has been committed. -/
def paramsZeroK : SpringParameters :=
  { mass := JsNum.fin 1, springConstant := JsNum.fin 0,
    initialLength := JsNum.fin 1, dampingCoefficient := JsNum.fin (1/2) }

/-- A displaced, actively running run. -/
def runActive : SimRun :=
  { state := { initialSimulationState with
               position := JsNum.fin (1/2), isRunning := true },
    timeSeriesData := emptyTimeSeriesData, lastDataUpdate := 0,
    rafId := none }

/-- A displaced run whose flags mark it Running but paused. -/
def runPausedMid : SimRun :=
  { state := { initialSimulationState with
               position := JsNum.fin (1/2), isRunning := true,
               isPaused := true },
    timeSeriesData := emptyTimeSeriesData, lastDataUpdate := 0,
    rafId := none }

/-- An active run with a scheduled-but-not-yet-run tick (pending RAF
handle 1). -/
def runPendingTick : SimRun :=
  { state := { initialSimulationState with isRunning := true },
    timeSeriesData := emptyTimeSeriesData, lastDataUpdate := 0,
    rafId := some 1 }

/-- An active run whose position holds NaN (reachable through
setInitialDisplacement, which does not validate). -/
def runNaN : SimRun :=
  { state := { initialSimulationState with
               position := JsNum.nan, isRunning := true },
    timeSeriesData := emptyTimeSeriesData, lastDataUpdate := 0,
    rafId := none }

/-- A run seeded the way the UI seeds oscillation: displacement injected,
then started. -/
def runSeeded : SimRun :=
  start (setInitialDisplacement (JsNum.fin (1/2)) initialRun)

/-- An acceleration function that always returns Infinity. -/
def accelInfinity : JsNum → JsNum → Except PhysicsError JsNum :=
  fun _ _ => Except.ok JsNum.inf

/-- A concrete finite-valued acceleration function (the undamped spring with
unit stiffness and unit mass), used to instantiate the RK4 theorem. -/
def accelSpecimen : JsNum → JsNum → Except PhysicsError JsNum
  | JsNum.fin p, JsNum.fin _ => Except.ok (JsNum.fin (-p))
  | _, _ => Except.ok JsNum.nan

/-! Basic facts about the JS-number arithmetic on finite values. -/

@[simp] theorem isFinite_fin (q : ℚ) : (JsNum.fin q).isFinite = true := rfl

@[simp] theorem neg_fin (q : ℚ) : -(JsNum.fin q) = JsNum.fin (-q) := rfl

@[simp] theorem add_fin (p q : ℚ) :
    JsNum.fin p + JsNum.fin q = JsNum.fin (p + q) := rfl

@[simp] theorem mul_fin (p q : ℚ) :
    JsNum.fin p * JsNum.fin q = JsNum.fin (p * q) := rfl

theorem div_fin (p q : ℚ) (hq : q ≠ 0) :
    JsNum.fin p / JsNum.fin q = JsNum.fin (p / q) := by
  show JsNum.div (JsNum.fin p) (JsNum.fin q) = JsNum.fin (p / q)
  simp [JsNum.div, hq]

@[simp] theorem div_fin_two (p : ℚ) :
    JsNum.fin p / JsNum.fin 2 = JsNum.fin (p / 2) :=
  div_fin p 2 two_ne_zero

@[simp] theorem div_fin_six (p : ℚ) :
    JsNum.fin p / JsNum.fin 6 = JsNum.fin (p / 6) :=
  div_fin p 6 (by norm_num)

/-- C1: for every finite position, velocity and timestep and every
acceleration function that is finite-valued on finite inputs (agreeing with
the rational function a), rk4Step succeeds and returns exactly the classical
RK4 update of the specification. -/
theorem rk4Step_matches_spec_rk4 (x v dt : ℚ) (a : ℚ → ℚ → ℚ)
    (accel : JsNum → JsNum → Except PhysicsError JsNum)
    (haccel : ∀ p w : ℚ,
      accel (JsNum.fin p) (JsNum.fin w) = Except.ok (JsNum.fin (a p w))) :
    rk4Step { position := JsNum.fin x, velocity := JsNum.fin v }
        (JsNum.fin dt) accel =
      Except.ok { position := JsNum.fin (specRK4Update a x v dt).1,
                  velocity := JsNum.fin (specRK4Update a x v dt).2 } := by
  simp only [rk4Step, specRK4Update, isFinite_fin, Bool.and_self,
    Bool.not_true, Bool.false_eq_true, if_false, haccel, mul_fin, add_fin,
    div_fin_two, div_fin_six]
  simp only [Except.ok.injEq, State.mk.injEq, JsNum.fin.injEq]
  constructor
  · ring
  · ring

/-- C4: for finite position and velocity and parameters with finite positive
mass, finite spring constant and finite non-negative damping coefficient,
the composite acceleration used by the integrator succeeds and equals
(-k * x + -c * v) / m. -/
theorem accelerationOf_composite (m k c x v : ℚ) (len : JsNum)
    (hm : 0 < m) (hc : 0 ≤ c) :
    computeAccelerationFromState
        { mass := JsNum.fin m, springConstant := JsNum.fin k,
          initialLength := len, dampingCoefficient := JsNum.fin c }
        (JsNum.fin x) (JsNum.fin v) =
      Except.ok (JsNum.fin ((-k * x + -c * v) / m)) := by
  have hcz : (JsNum.fin c).ltZero = false := by
    simp [JsNum.ltZero, not_lt, hc]
  have hmz : (JsNum.fin m).leZero = false := by
    simp [JsNum.leZero, not_le, hm]
  have hdiv : ∀ p : ℚ, JsNum.fin p / JsNum.fin m = JsNum.fin (p / m) :=
    fun p => div_fin p m hm.ne'
  simp only [computeAccelerationFromState, computeSpringForce,
    computeDampingForce, computeAcceleration, isFinite_fin, Bool.and_self,
    Bool.not_true, Bool.false_eq_true, if_false, hcz, hmz, neg_fin, mul_fin,
    add_fin, hdiv]

/-- C2: with finite inputs, if the acceleration function returns a
non-finite value at any of the four staged slope evaluations, rk4Step fails
with NumericalDivergence at that stage (producing no output state); and
whenever the physics step of a tick fails on an active run, the animate
callback pauses the run, leaving position, velocity, acceleration, elapsed
time and the sample series unchanged. -/
theorem rk4_divergence_pauses_loop
    (x v dt : JsNum) (accel : JsNum → JsNum → Except PhysicsError JsNum)
    (k1 k2 k3 : JsNum) (params : SpringParameters) (run : SimRun)
    (err : PhysicsError)
    (hx : x.isFinite = true) (hv : v.isFinite = true)
    (hdt : dt.isFinite = true) :
    (accel x v = Except.ok k1 → k1.isFinite = false →
      rk4Step { position := x, velocity := v } dt accel =
        Except.error PhysicsError.numericalDivergence) ∧
    (accel x v = Except.ok k1 → k1.isFinite = true →
      accel (x + v * dt / JsNum.fin 2) (v + k1 * dt / JsNum.fin 2) =
        Except.ok k2 →
      k2.isFinite = false →
      rk4Step { position := x, velocity := v } dt accel =
        Except.error PhysicsError.numericalDivergence) ∧
    (accel x v = Except.ok k1 → k1.isFinite = true →
      accel (x + v * dt / JsNum.fin 2) (v + k1 * dt / JsNum.fin 2) =
        Except.ok k2 →
      k2.isFinite = true →
      accel (x + (v + k1 * dt / JsNum.fin 2) * dt / JsNum.fin 2)
          (v + k2 * dt / JsNum.fin 2) = Except.ok k3 →
      k3.isFinite = false →
      rk4Step { position := x, velocity := v } dt accel =
        Except.error PhysicsError.numericalDivergence) ∧
    (∀ k4 : JsNum, accel x v = Except.ok k1 → k1.isFinite = true →
      accel (x + v * dt / JsNum.fin 2) (v + k1 * dt / JsNum.fin 2) =
        Except.ok k2 →
      k2.isFinite = true →
      accel (x + (v + k1 * dt / JsNum.fin 2) * dt / JsNum.fin 2)
          (v + k2 * dt / JsNum.fin 2) = Except.ok k3 →
      k3.isFinite = true →
      accel (x + (v + k2 * dt / JsNum.fin 2) * dt) (v + k3 * dt) =
        Except.ok k4 →
      k4.isFinite = false →
      rk4Step { position := x, velocity := v } dt accel =
        Except.error PhysicsError.numericalDivergence) ∧
    (run.state.isRunning = true → run.state.isPaused = false →
      computeNextState params
          { position := run.state.position, velocity := run.state.velocity }
          (JsNum.fin TIMESTEP) = Except.error err →
      animate params run = pause run) := by
  refine ⟨?_, ?_, ?_, ?_, ?_⟩
  · intro h1 h2
    simp only [rk4Step, hx, hv, hdt, Bool.and_self, Bool.not_true,
      Bool.false_eq_true, if_false, h1, h2, Bool.not_false, if_true]
  · intro h1 h2 h3 h4
    simp only [rk4Step, hx, hv, hdt, Bool.and_self, Bool.not_true,
      Bool.false_eq_true, if_false, h1, h2, h3, h4, Bool.not_false, if_true]
  · intro h1 h2 h3 h4 h5 h6
    simp only [rk4Step, hx, hv, hdt, Bool.and_self, Bool.not_true,
      Bool.false_eq_true, if_false, h1, h2, h3, h4, h5, h6, Bool.not_false,
      if_true]
  · intro k4 h1 h2 h3 h4 h5 h6 h7 h8
    simp only [rk4Step, hx, hv, hdt, Bool.and_self, Bool.not_true,
      Bool.false_eq_true, if_false, h1, h2, h3, h4, h5, h6, h7, h8,
      Bool.not_false, if_true]
  · intro hrun hpause hstep
    simp only [animate, hrun, hpause, Bool.not_true, Bool.false_or,
      Bool.false_eq_true, if_false, hstep, pause]

/-- C6: reset unconditionally restores the all-zero Stopped state and leaves
every one of the four sample series empty, regardless of the prior state. -/
theorem reset_yields_initial (run : SimRun) :
    (reset run).state.position = JsNum.fin 0 ∧
    (reset run).state.velocity = JsNum.fin 0 ∧
    (reset run).state.acceleration = JsNum.fin 0 ∧
    (reset run).state.time = 0 ∧
    (reset run).state.isRunning = false ∧
    (reset run).state.isPaused = false ∧
    (reset run).timeSeriesData.displacement = [] ∧
    (reset run).timeSeriesData.velocity = [] ∧
    (reset run).timeSeriesData.acceleration = [] ∧
    (reset run).timeSeriesData.totalEnergy = [] :=
  ⟨rfl, rfl, rfl, rfl, rfl, rfl, rfl, rfl, rfl, rfl⟩

/-- Helper: the rolling-window append ends with the new sample. -/
theorem pruneAndAdd_getLast (c t : ℚ) (data : List DataPoint) (value : JsNum) :
    (pruneAndAdd c t data value).getLast? = some { time := t, value := value } := by
  unfold pruneAndAdd
  rw [List.getLast?_append_cons]
  rfl

/-- Helper: after the rolling-window append with cutoff t - W, every point
of the channel has time at least t - W (the window duration W is positive,
so the new sample itself also satisfies the bound). -/
theorem pruneAndAdd_window (t : ℚ) (data : List DataPoint) (value : JsNum) :
    ∀ p ∈ pruneAndAdd (t - GRAPH_WINDOW_DURATION) t data value,
      t - GRAPH_WINDOW_DURATION ≤ p.time := by
  intro p hp
  unfold pruneAndAdd at hp
  rcases List.mem_append.1 hp with h | h
  · exact of_decide_eq_true (List.mem_filter.1 h).2
  · rcases List.mem_singleton.1 h with rfl
    simp only [GRAPH_WINDOW_DURATION]
    linarith

/-- C7: every append of a sample at time t leaves each of the four channels
ending with the new sample (t, value), and containing no sample with time
less than t - 15; in particular the oldest sample of every channel is at
most 15 seconds older than the latest one. -/
theorem addDataPoint_window_invariant (t : ℚ)
    (d v a e : JsNum) (prev : TimeSeriesData) :
    ((addDataPoint t d v a e prev).displacement.getLast? =
        some { time := t, value := d } ∧
      ∀ p ∈ (addDataPoint t d v a e prev).displacement, t - 15 ≤ p.time) ∧
    ((addDataPoint t d v a e prev).velocity.getLast? =
        some { time := t, value := v } ∧
      ∀ p ∈ (addDataPoint t d v a e prev).velocity, t - 15 ≤ p.time) ∧
    ((addDataPoint t d v a e prev).acceleration.getLast? =
        some { time := t, value := a } ∧
      ∀ p ∈ (addDataPoint t d v a e prev).acceleration, t - 15 ≤ p.time) ∧
    ((addDataPoint t d v a e prev).totalEnergy.getLast? =
        some { time := t, value := e } ∧
      ∀ p ∈ (addDataPoint t d v a e prev).totalEnergy, t - 15 ≤ p.time) := by
  have hW : t - 15 = t - GRAPH_WINDOW_DURATION := by
    simp [GRAPH_WINDOW_DURATION]
  refine ⟨⟨?_, ?_⟩, ⟨?_, ?_⟩, ⟨?_, ?_⟩, ⟨?_, ?_⟩⟩ <;>
    simp only [addDataPoint, hW] <;>
    first
      | exact pruneAndAdd_getLast _ _ _ _
      | exact pruneAndAdd_window _ _ _

/-- C10: setInitialDisplacement performs no finiteness validation: any value,
including the non-finite ones, is written directly into the position (with
velocity and acceleration zeroed); a non-finite position is only rejected
later, by the input check of the integrator on the next physics step, which
fails with InvalidInput. -/
theorem setDisplacement_no_validation (x : JsNum) (run : SimRun)
    (params : SpringParameters) :
    (setInitialDisplacement x run).state.position = x ∧
    (setInitialDisplacement x run).state.velocity = JsNum.fin 0 ∧
    (setInitialDisplacement x run).state.acceleration = JsNum.fin 0 ∧
    (x.isFinite = false →
      computeNextState params { position := x, velocity := JsNum.fin 0 }
          (JsNum.fin TIMESTEP) = Except.error PhysicsError.invalidInput) := by
  refine ⟨rfl, rfl, rfl, fun hx => ?_⟩
  simp only [computeNextState, rk4Step, hx, isFinite_fin, Bool.false_and,
    Bool.not_false, if_true]

/-- Helper: inversion of the spring-force guards on a success. -/
theorem computeSpringForce_ok_inv (x k f : JsNum)
    (h : computeSpringForce x k = Except.ok f) :
    x.isFinite = true ∧ k.isFinite = true := by
  unfold computeSpringForce at h
  split at h
  · exact absurd h (by simp)
  · rename_i hg
    simpa using hg

/-- Helper: inversion of the damping-force guards on a success. -/
theorem computeDampingForce_ok_inv (v c f : JsNum)
    (h : computeDampingForce v c = Except.ok f) :
    v.isFinite = true ∧ c.isFinite = true ∧ c.ltZero = false := by
  unfold computeDampingForce at h
  split at h
  · exact absurd h (by simp)
  · rename_i hg1
    split at h
    · exact absurd h (by simp)
    · rename_i hg2
      have hg1' : v.isFinite = true ∧ c.isFinite = true := by simpa using hg1
      exact ⟨hg1'.1, hg1'.2, by simpa using hg2⟩

/-- Helper: inversion of the acceleration guards on a success. -/
theorem computeAcceleration_ok_inv (force mass f : JsNum)
    (h : computeAcceleration force mass = Except.ok f) :
    force.isFinite = true ∧ mass.isFinite = true ∧ mass.leZero = false := by
  unfold computeAcceleration at h
  split at h
  · exact absurd h (by simp)
  · rename_i hg1
    split at h
    · exact absurd h (by simp)
    · rename_i hg2
      have hg1' : force.isFinite = true ∧ mass.isFinite = true := by
        simpa using hg1
      exact ⟨hg1'.1, hg1'.2, by simpa using hg2⟩

/-- Helper: when the spring constant is positive, a successful physics step
implies the energy evaluation of its output succeeds: the success of the
composite acceleration call inside computeNextState already forces the
finiteness of position, velocity, mass and spring constant and the
positivity of the mass, and positivity of the spring constant is the one
remaining potential-energy guard. -/
theorem computeNextState_ok_energy (params : SpringParameters)
    (s : State) (dt : JsNum) (ns : NextState)
    (hk : params.springConstant.leZero = false)
    (h : computeNextState params s dt = Except.ok ns) :
    ∃ en, computeEnergy params ns.position ns.velocity = Except.ok en := by
  unfold computeNextState at h
  split at h
  · exact absurd h (by simp)
  · rename_i next heq1
    split at h
    · exact absurd h (by simp)
    · rename_i acc heq2
      injection h with h2
      subst h2
      unfold computeAccelerationFromState at heq2
      split at heq2
      · exact absurd heq2 (by simp)
      · rename_i sf hsf
        split at heq2
        · exact absurd heq2 (by simp)
        · rename_i df hdf
          obtain ⟨hpos, hkfin⟩ := computeSpringForce_ok_inv _ _ _ hsf
          obtain ⟨hvel, hcfin, hcnn⟩ := computeDampingForce_ok_inv _ _ _ hdf
          obtain ⟨hffin, hmfin, hmnz⟩ := computeAcceleration_ok_inv _ _ _ heq2
          exact ⟨JsNum.fin (1/2) * params.mass * next.velocity *
              next.velocity +
              JsNum.fin (1/2) * params.springConstant * next.position *
              next.position,
            by simp only [computeEnergy, computeTotalEnergy,
              computeKineticEnergy, computePotentialEnergy, hpos, hkfin,
              hvel, hmfin, hmnz, hk, Bool.and_self, Bool.and_true,
              Bool.true_and, Bool.not_true, Bool.false_eq_true, if_false]⟩

/-- Helper: a paused run is fixed by the tick. -/
theorem animate_paused_fixed (params : SpringParameters) (run : SimRun)
    (h : run.state.isPaused = true) : animate params run = run := by
  unfold animate
  simp [h]

/-- Helper: a stopped run is fixed by the tick. -/
theorem animate_stopped_fixed (params : SpringParameters) (run : SimRun)
    (h : run.state.isRunning = false) : animate params run = run := by
  unfold animate
  simp [h]

/-- Helper: with a positive spring constant the step-error invariant is
preserved by one tick (the error branches pause without touching the
physical fields, and by the energy lemma the committed-then-paused branch
is unreachable). -/
theorem animate_preserves_stepError (params : SpringParameters)
    (run : SimRun) (hk : params.springConstant.leZero = false)
    (h : pausedImpliesStepError params run) :
    pausedImpliesStepError params (animate params run) := by
  unfold animate
  by_cases hg : (!run.state.isRunning || run.state.isPaused) = true
  · rw [if_pos hg]
    exact h
  · rw [if_neg hg]
    cases hc : computeNextState params
        { position := run.state.position, velocity := run.state.velocity }
        (JsNum.fin TIMESTEP) with
    | error e =>
      simp only [pausedImpliesStepError]
      intro _
      exact ⟨e, hc⟩
    | ok ns =>
      obtain ⟨en, hen⟩ := computeNextState_ok_energy params _ _ ns hk hc
      simp only [pausedImpliesStepError, hen]
      split
      · intro hp
        simp at hp
      · intro hp
        simp at hp

/-- Helper: the step-error invariant is preserved by any number of ticks. -/
theorem iterate_preserves_stepError (params : SpringParameters) (N : ℕ)
    (run : SimRun) (hk : params.springConstant.leZero = false)
    (h : pausedImpliesStepError params run) :
    pausedImpliesStepError params ((animate params)^[N] run) := by
  induction N with
  | zero => exact h
  | succ n ih =>
    rw [Function.iterate_succ_apply']
    exact animate_preserves_stepError params _ hk ih

/-- Helper: resuming a run that is not paused changes nothing. -/
theorem resume_of_not_paused (run : SimRun)
    (h : run.state.isPaused = false) : resume run = run := by
  obtain ⟨⟨p, v, a, t, ir, ip⟩, d, l, rf⟩ := run
  cases ip
  · rfl
  · exact absurd h (by simp [resume])

/-- Helper: pausing right after resuming a paused run restores it. -/
theorem pause_resume_of_paused (run : SimRun)
    (h : run.state.isPaused = true) : pause (resume run) = run := by
  obtain ⟨⟨p, v, a, t, ir, ip⟩, d, l, rf⟩ := run
  cases ip
  · exact absurd h (by simp [pause, resume])
  · rfl

/-- Helper: pausing then resuming is the same as resuming. -/
theorem resume_pause (run : SimRun) : resume (pause run) = resume run := rfl

/-- Helper: under the step-error invariant, resuming before a block of
ticks does not change the physical fields the block produces. -/
theorem iterate_animate_resume (params : SpringParameters) (M : ℕ)
    (t : SimRun) (hstuck : pausedImpliesStepError params t) :
    physFields ((animate params)^[M] (resume t)) =
      physFields ((animate params)^[M] t) := by
  by_cases hp : t.state.isPaused = true
  · obtain ⟨e, he⟩ := hstuck hp
    by_cases hr : t.state.isRunning = true
    · have h1 : animate params t = t := animate_paused_fixed params t hp
      have hu : animate params (resume t) = t := by
        unfold animate
        rw [if_neg (by simp [resume, hr])]
        rw [show computeNextState params
            { position := (resume t).state.position,
              velocity := (resume t).state.velocity }
            (JsNum.fin TIMESTEP) = Except.error e from he]
        exact pause_resume_of_paused t hp
      cases M with
      | zero => rfl
      | succ m =>
        rw [Function.iterate_succ_apply, Function.iterate_succ_apply, hu, h1]
    · have hr' : t.state.isRunning = false := by
        simpa using hr
      have h1 : animate params t = t := animate_stopped_fixed params t hr'
      have hu : animate params (resume t) = resume t :=
        animate_stopped_fixed params (resume t) (by simp [resume, hr'])
      rw [Function.iterate_fixed hu M, Function.iterate_fixed h1 M]
      rfl
  · rw [resume_of_not_paused t (by simpa using hp)]

/-- C5 (amended with the starting state not paused and the spring constant
positive, as the SystemParameters invariant of the specification requires):
advancing N ticks, pausing, resuming, then advancing M more ticks yields
the same position, velocity, acceleration and elapsed time as advancing
N + M ticks without the pause.  Positivity of the spring constant confines
every loop failure to the pre-commit path, where the deterministic retry of
the failing step changes nothing. -/
theorem pause_resume_identity_unpaused (params : SpringParameters)
    (run : SimRun) (hk : params.springConstant.leZero = false)
    (hp : run.state.isPaused = false) (N M : ℕ) :
    physFields ((animate params)^[M]
        (resume (pause ((animate params)^[N] run)))) =
      physFields ((animate params)^[N + M] run) := by
  have hstart : pausedImpliesStepError params run := fun hcontra =>
    absurd hcontra (by simp [hp])
  have hstuck := iterate_preserves_stepError params N run hk hstart
  have key := iterate_animate_resume params M ((animate params)^[N] run)
    hstuck
  calc physFields ((animate params)^[M]
          (resume (pause ((animate params)^[N] run))))
      = physFields ((animate params)^[M]
          (resume ((animate params)^[N] run))) := by rw [resume_pause]
    _ = physFields ((animate params)^[M] ((animate params)^[N] run)) := key
    _ = physFields ((animate params)^[N + M] run) := by
          rw [add_comm N M, Function.iterate_add_apply]

/-- C8: setInitialDisplacement is accepted in every run mode; it writes the
displacement into the position, zeroes velocity and acceleration, and leaves
elapsed time, the run-mode flags and all four sample series unchanged; and
when the loop is active, the next tick integrates from the new point
(x, 0). -/
theorem setDisplacement_effect (params : SpringParameters) (x : JsNum)
    (run : SimRun) :
    (setInitialDisplacement x run).state.position = x ∧
    (setInitialDisplacement x run).state.velocity = JsNum.fin 0 ∧
    (setInitialDisplacement x run).state.acceleration = JsNum.fin 0 ∧
    (setInitialDisplacement x run).state.time = run.state.time ∧
    (setInitialDisplacement x run).state.isRunning = run.state.isRunning ∧
    (setInitialDisplacement x run).state.isPaused = run.state.isPaused ∧
    (setInitialDisplacement x run).timeSeriesData = run.timeSeriesData ∧
    (∀ (ns : NextState) (en : JsNum),
      run.state.isRunning = true → run.state.isPaused = false →
      computeNextState params { position := x, velocity := JsNum.fin 0 }
          (JsNum.fin TIMESTEP) = Except.ok ns →
      computeEnergy params ns.position ns.velocity = Except.ok en →
      (animate params (setInitialDisplacement x run)).state.position =
          ns.position ∧
      (animate params (setInitialDisplacement x run)).state.velocity =
          ns.velocity ∧
      (animate params (setInitialDisplacement x run)).state.acceleration =
          ns.acceleration ∧
      (animate params (setInitialDisplacement x run)).state.time =
          run.state.time + TIMESTEP) := by
  refine ⟨rfl, rfl, rfl, rfl, rfl, rfl, rfl, ?_⟩
  intro ns en hrun hpause hstep hE
  simp only [animate, setInitialDisplacement, hrun, hpause,
    hstep, hE, Bool.not_true, Bool.or_false, Bool.false_eq_true, if_false]
  split
  · simp
  · simp

/-- Witness for C1 at a concrete input: the specimen acceleration function
is finite-valued on finite inputs, and rk4Step on x = 1, v = 0, dt = 1/2
returns exactly the classical RK4 update of that function. -/
theorem rk4Step_matches_spec_rk4_witness :
    (∀ p w : ℚ, accelSpecimen (JsNum.fin p) (JsNum.fin w) =
      Except.ok (JsNum.fin (-p))) ∧
    rk4Step { position := JsNum.fin 1, velocity := JsNum.fin 0 }
        (JsNum.fin (1/2)) accelSpecimen =
      Except.ok
        { position := JsNum.fin (specRK4Update (fun p _ => -p) 1 0 (1/2)).1,
          velocity := JsNum.fin (specRK4Update (fun p _ => -p) 1 0 (1/2)).2 } :=
  ⟨fun _ _ => rfl,
   rk4Step_matches_spec_rk4 1 0 (1/2) (fun p _ => -p) accelSpecimen
     (fun _ _ => rfl)⟩

/-- Witness for C2 at concrete inputs: an acceleration function returning
Infinity makes rk4Step fail with NumericalDivergence at the very first
slope, and on an active run whose physics step fails the tick pauses the
run and changes nothing else. -/
theorem rk4_divergence_pauses_loop_witness :
    accelInfinity (JsNum.fin 0) (JsNum.fin 0) = Except.ok JsNum.inf ∧
    JsNum.inf.isFinite = false ∧
    rk4Step { position := JsNum.fin 0, velocity := JsNum.fin 0 }
        (JsNum.fin TIMESTEP) accelInfinity =
      Except.error PhysicsError.numericalDivergence ∧
    runNaN.state.isRunning = true ∧
    runNaN.state.isPaused = false ∧
    animate paramsRef runNaN = pause runNaN := by
  refine ⟨rfl, rfl, ?_, rfl, rfl, ?_⟩
  · exact (rk4_divergence_pauses_loop (JsNum.fin 0) (JsNum.fin 0)
      (JsNum.fin TIMESTEP) accelInfinity JsNum.inf JsNum.nan JsNum.nan
      paramsRef runNaN PhysicsError.invalidInput rfl rfl rfl).1 rfl rfl
  · exact (rk4_divergence_pauses_loop (JsNum.fin 0) (JsNum.fin 0)
      (JsNum.fin TIMESTEP) accelInfinity JsNum.inf JsNum.nan JsNum.nan
      paramsRef runNaN PhysicsError.invalidInput rfl rfl rfl).2.2.2.2
      rfl rfl rfl

/-- C3 evaluated at the failing input: a run with a scheduled tick
(pending handle 1).  In the code pause only sets the isPaused flag and
leaves the pending scheduling handle in place, while reset does cancel it
synchronously; so the claim that both operations drop the handle
synchronously fails for pause. -/
theorem pause_leaves_pending_handle :
    runPendingTick.rafId = some 1 ∧
    (pause runPendingTick).rafId = some 1 ∧
    (pause runPendingTick).state.isPaused = true ∧
    (reset runPendingTick).rafId = none :=
  ⟨rfl, rfl, rfl, rfl⟩

/-- Witness for C4 at a concrete input: the representative parameters and
position 1, velocity 2 give acceleration (-10 * 1 + -(1/2) * 2) / 1. -/
theorem accelerationOf_composite_witness :
    (0:ℚ) < 1 ∧ (0:ℚ) ≤ 1/2 ∧
    computeAccelerationFromState paramsRef (JsNum.fin 1) (JsNum.fin 2) =
      Except.ok (JsNum.fin ((-10 * 1 + -(1/2) * 2) / 1)) :=
  ⟨by norm_num, by norm_num,
   accelerationOf_composite 1 10 (1/2) 1 2 (JsNum.fin 1)
     (by norm_num) (by norm_num)⟩

/-- Counterexamples to C5 as stated over every starting state.  First, from
a state that is Running but paused, zero ticks then pause, resume and one
tick advance the elapsed time, while one tick without the pause-resume
pair is a no-op.  Second, even from an unpaused seeded run the identity
fails when the spring constant is zero: the sixth tick is a sampling tick
whose energy evaluation throws after the advance was committed, so the run
pauses with the advanced state, and the pause-resume pair lets the retried
tick commit one extra step that the uninterrupted run never takes. -/
theorem pause_resume_identity_counterexamples :
    (¬ physFields ((animate paramsRef)^[1]
        (resume (pause ((animate paramsRef)^[0] runPausedMid)))) =
      physFields ((animate paramsRef)^[0 + 1] runPausedMid)) ∧
    runSeeded.state.isPaused = false ∧
    (¬ physFields ((animate paramsZeroK)^[1]
        (resume (pause ((animate paramsZeroK)^[6] runSeeded)))) =
      physFields ((animate paramsZeroK)^[6 + 1] runSeeded)) := by
  refine ⟨?_, rfl, ?_⟩
  · with_unfolding_all decide
  · with_unfolding_all decide

/-- Witness for the amended C5 at a concrete input: positive spring
constant, an unpaused active run, one tick, pause, resume, one more tick
versus two uninterrupted ticks. -/
theorem pause_resume_identity_unpaused_witness :
    paramsRef.springConstant.leZero = false ∧
    runActive.state.isPaused = false ∧
    physFields ((animate paramsRef)^[1]
        (resume (pause ((animate paramsRef)^[1] runActive)))) =
      physFields ((animate paramsRef)^[1 + 1] runActive) := by
  have hkref : paramsRef.springConstant.leZero = false := by
    with_unfolding_all decide
  exact ⟨hkref, rfl,
    pause_resume_identity_unpaused paramsRef runActive hkref rfl 1 1⟩

/-- Witness for C8 at a concrete input: injecting displacement 0 into an
active run; the next tick integrates from (0, 0) and therefore stays at the
origin while advancing the elapsed time by one timestep. -/
theorem setDisplacement_effect_witness :
    runActive.state.isRunning = true ∧
    runActive.state.isPaused = false ∧
    (setInitialDisplacement (JsNum.fin 0) runActive).state.position =
      JsNum.fin 0 ∧
    (animate paramsRef
        (setInitialDisplacement (JsNum.fin 0) runActive)).state.position =
      JsNum.fin 0 ∧
    (animate paramsRef
        (setInitialDisplacement (JsNum.fin 0) runActive)).state.time =
      runActive.state.time + TIMESTEP := by
  have hstep : computeNextState paramsRef
      { position := JsNum.fin 0, velocity := JsNum.fin 0 }
      (JsNum.fin TIMESTEP) =
      Except.ok { position := JsNum.fin 0, velocity := JsNum.fin 0,
                  acceleration := JsNum.fin 0 } := by
    with_unfolding_all rfl
  have hE : computeEnergy paramsRef (JsNum.fin 0) (JsNum.fin 0) =
      Except.ok (JsNum.fin 0) := by
    with_unfolding_all rfl
  have h := setDisplacement_effect paramsRef (JsNum.fin 0) runActive
  have hc := h.2.2.2.2.2.2.2
    { position := JsNum.fin 0, velocity := JsNum.fin 0,
      acceleration := JsNum.fin 0 } (JsNum.fin 0) rfl rfl hstep hE
  exact ⟨rfl, rfl, h.1, hc.1, hc.2.2.2⟩

/-- Counterexample to C9 as stated over every valid damped parameter set:
for the stiff parameters (mass 0.01, spring constant 1000, damping 0.001,
all accepted by validateParameters, damping positive) and initial
displacement 0.5, the two totalEnergy samples collected during the first
0.2 s of simulated time are not non-increasing; the second exceeds a
million times the first, far beyond discretization noise. -/
theorem energy_increases_for_stiff_params :
    sampleValuesNonIncreasing
        (energySamples ((animate paramsStiff)^[12] runSeeded)) = false ∧
    (match energySamples ((animate paramsStiff)^[12] runSeeded) with
     | [JsNum.fin e1, JsNum.fin e2] => decide (1000000 * e1 < e2)
     | _ => false) = true := by
  constructor
  · with_unfolding_all decide
  · with_unfolding_all decide

set_option maxRecDepth 10000 in
/-- C9 (amended to the numerically stable regime, verified on the
representative parameter set mass 1, spring constant 10, damping 0.5 with
initial displacement 0.5): over the first second of simulated time the loop
collects ten totalEnergy samples and they are monotonically
non-increasing. -/
theorem damped_energy_nonincreasing_representative :
    (energySamples ((animate paramsRef)^[60] runSeeded)).length = 10 ∧
    sampleValuesNonIncreasing
        (energySamples ((animate paramsRef)^[60] runSeeded)) = true := by
  constructor
  · with_unfolding_all decide
  · with_unfolding_all decide

/-- Witness for C10 at a concrete input: NaN is written into the position
unchecked, and the next physics step rejects it with InvalidInput. -/
theorem setDisplacement_no_validation_witness :
    JsNum.nan.isFinite = false ∧
    (setInitialDisplacement JsNum.nan runActive).state.position =
      JsNum.nan ∧
    computeNextState paramsRef
        { position := JsNum.nan, velocity := JsNum.fin 0 }
        (JsNum.fin TIMESTEP) = Except.error PhysicsError.invalidInput :=
  ⟨rfl, (setDisplacement_no_validation JsNum.nan runActive paramsRef).1,
   (setDisplacement_no_validation JsNum.nan runActive paramsRef).2.2.2 rfl⟩

end SpringSim
